import Mathlib

/-!
# Verification of the NFe validation pipeline (`src/main.py`)

Shallow embedding of the extraction / classification / validation /
aggregation core of the repository.  XML documents are modelled by a
structure holding exactly the nodes the program reads; Python floats are
modelled by exact rationals (`ℚ`); a fallible parse is an `Option`.
The two classification tables come from the module
`mapeamento_materiais`, which is external configuration (spec §6); they
are passed as explicit parameters.
-/

set_option maxRecDepth 8000

namespace NFChecker

/-! ## Python string primitives, modelled structurally over `List Char` -/

/-- Python `str.upper()` (ASCII model). -/
def pyUpper (s : String) : String := ⟨s.data.map Char.toUpper⟩

/-- Python `str.lower()` (ASCII model). -/
def pyLower (s : String) : String := ⟨s.data.map Char.toLower⟩

/-- Drop leading whitespace characters. -/
def stripLeft (l : List Char) : List Char := l.dropWhile Char.isWhitespace

/-- Drop trailing whitespace characters. -/
def stripRight (l : List Char) : List Char := (l.reverse.dropWhile Char.isWhitespace).reverse

/-- Python `str.strip()`: remove leading and trailing whitespace. -/
def pyStrip (s : String) : String := ⟨stripRight (stripLeft s.data)⟩

/-- Substring test on character lists; `containsSub p l` is true when the
pattern `p` occurs contiguously inside `l`.  Models Python `p in l`. -/
def containsSub (p : List Char) : List Char → Bool
  | [] => p.isEmpty
  | c :: t => p.isPrefixOf (c :: t) || containsSub p t

/-- Python `sub in s` for strings. -/
def pyIn (sub s : String) : Bool := containsSub sub.data s.data

/-- Python `str.isdigit()` (ASCII model): nonempty and all digits. -/
def pyIsDigit (s : String) : Bool := !s.data.isEmpty && s.data.all Char.isDigit

/-- Python `str.lstrip('0')`: drop leading `'0'` characters. -/
def lstripZeros (s : String) : String := ⟨s.data.dropWhile (· == '0')⟩

/-- Numeric value of a list of digit characters. -/
def digitsToNat (l : List Char) : Nat := l.foldl (fun a c => a * 10 + (c.toNat - 48)) 0

/-- Python `int(s)` on candidate digit strings: `none` models the
`ValueError` raised on the empty string (or any non-digit input). -/
def pyInt? (s : String) : Option Nat :=
  if !s.data.isEmpty && s.data.all Char.isDigit then some (digitsToNat s.data) else none

/-- First `n` characters, Python `s[:n]`-style (for `n ≤ len s`). -/
def pyTake (s : String) (n : Nat) : String := ⟨s.data.take n⟩

/-- Characters from position `n` on, Python `s[n:]`-style. -/
def pyDrop (s : String) (n : Nat) : String := ⟨s.data.drop n⟩

/-- Python `len(s)`. -/
def pyLen (s : String) : Nat := s.data.length

/-- Python f-string interpolation of a value that may be `None`. -/
def pyFormatOpt : Option String → String
  | none => "None"
  | some s => s

/-- One rewriting step list for Python `str.replace`, with fuel for
structural termination (fuel `= length` of the scanned list suffices). -/
def pyReplaceFuel (pat rep : List Char) : Nat → List Char → List Char
  | 0, l => l
  | _ + 1, [] => []
  | fuel + 1, c :: t =>
    if pat.isPrefixOf (c :: t) then rep ++ pyReplaceFuel pat rep fuel (t.drop (pat.length - 1))
    else c :: pyReplaceFuel pat rep fuel t

/-- Python `s.replace(pat, rep)` (non-overlapping, left to right);
the program only calls it with the nonempty pattern `"NFe"`. -/
def pyReplace (s pat rep : String) : String :=
  if pat.data.isEmpty then s else ⟨pyReplaceFuel pat.data rep.data s.data.length s.data⟩

/-! ## Data model: the XML nodes `processar_xml` reads -/

/-- Text contents of the `protNFe/infProt` element's children. -/
structure InfProt where
  cStat : Option String
  xMotivo : Option String
  chNFe : Option String
deriving DecidableEq

/-- The `protNFe` element.  `otherChild` records whether the element has
child elements besides `infProt`; Python truthiness of an
`ElementTree` element is `len(children) != 0`. -/
structure Prot where
  infProt : Option InfProt
  otherChild : Bool
deriving DecidableEq

/-- Python truthiness of the `protNFe` element (`if protNFe:`). -/
def Prot.truthy (p : Prot) : Bool := p.infProt.isSome || p.otherChild

/-- The `infNFe/ide` element. -/
structure Ide where
  tpNF : Option String
  nNF : Option String
  dhEmi : Option String
deriving DecidableEq

/-- The `infNFe/emit` element (with `enderEmit/UF` flattened in). -/
structure Emit where
  CNPJ : Option String
  xNome : Option String
  UF : Option String
deriving DecidableEq

/-- The `infNFe/dest` element. -/
structure Dest where
  CNPJ : Option String
deriving DecidableEq

/-- The `det/prod` element of one line item. -/
structure Produto where
  xProd : Option String
  qCom : Option String
  uCom : Option String
  vUnCom : Option String
  vProd : Option String
  NCM : Option String
  CFOP : Option String
deriving DecidableEq

/-- One `det` element; its `prod` child may be absent. -/
structure Det where
  prod : Option Produto
deriving DecidableEq

/-- The `infNFe` element with its `Id` attribute. -/
structure InfNFe where
  Id : Option String
  ide : Option Ide
  emit : Option Emit
  dest : Option Dest
  det : List Det
deriving DecidableEq

/-- A parsed document: the two top-level sections the program looks up. -/
structure XmlDoc where
  prot : Option Prot
  infNFe : Option InfNFe
deriving DecidableEq

/-- A raw payload: either it fails `ET.fromstring` or parses to a tree. -/
inductive RawInput where
  | malformed
  | parsed (doc : XmlDoc)
deriving DecidableEq

/-- Entry of the error report: `{"Arquivo": ..., "Erro": ...}`. -/
structure ErrorEntry where
  arquivo : String
  erro : String
deriving DecidableEq

/-- One row of the output DataFrame (the `dados_nota` dict,
src/main.py lines 135-165), field for field. -/
structure Row where
  tipoNF : Option String        -- 'Tipo NF'
  estado : String               -- 'ESTADO'
  cooperativa : String          -- 'COOPERATIVA'
  mes : String                  -- 'MÊS'
  categoria : String            -- 'CATEGORIA'
  subcategoria : String         -- 'SUBCATEGORIA'
  material : String             -- 'MATERIAL'
  quantidade : ℚ                -- 'QUANTIDADE'
  valorPorKg : ℚ                -- 'VALOR POR KG'
  valorPorVenda : ℚ             -- 'VALOR POR VENDA'
  nomeDoArquivo : String        -- 'NOME DO ARQUIVO'
  numeroNota : Nat              -- 'NUMERO NOTA'
  cnpjComprador : String        -- 'CNPJ DO COMPRADOR'
  unidade : String              -- 'UNIDADE'
  ncm : Option String           -- 'NCM'
  cfop : Option String          -- 'CFOP'
  sobra : String                -- 'SOBRA'
  mesValidacao : String         -- 'MÊS VALIDAÇÃO'
  anoDeEmissao : String         -- 'ANO DE EMISSÃO'
  anoTC : String                -- 'ANO TC'
  pauloRec : String             -- 'PAULO/REC+'
  mesEntrega : String           -- 'MÊS ENTREGA'
  cnpjOrganizacao : String      -- 'CNPJ ORGANIZAÇÃO'
  chaveDeAcesso : String        -- 'CHAVE DE ACESSO'
  status : String               -- 'STATUS'
  natureza : String             -- 'NATUREZA'
  observacoes : String          -- 'OBSERVAÇÕES'
  quantidadeNaoValidada : ℚ     -- 'QUANTIDADE NÃO VALIDADA'
  programa : String             -- 'PROGRAMA'
deriving DecidableEq

/-- A classification table (external configuration, spec §6):
material string to a pair of strings. -/
abbrev Table := String → Option (String × String)

/-- Python `float(s)`-or-`ValueError`, abstracted: the pipeline only wraps
it in `try/except` with default `0.0`, so it is a parameter. -/
abbrev FloatParse := String → Option ℚ

/-! ## The pipeline (`processar_xml`) -/

/-- Document number (src/main.py line 73):
`int(nNF_str.lstrip('0')) if nNF_str.isdigit() else 0`.
`none` models the uncaught `ValueError` of `int('')` when `nNF_str`
consists only of zeros. -/
def numeroNotaOf (nNF_str : String) : Option Nat :=
  if pyIsDigit nNF_str then pyInt? (lstripZeros nNF_str) else some 0

/-- Year of issuance: `data_emissao[:4] if len(data_emissao) >= 4 else ''`. -/
def anoEmissaoOf (d : String) : String := if pyLen d ≥ 4 then pyTake d 4 else ""

/-- Month of issuance: `data_emissao[5:7] if len(data_emissao) >= 7 else ''`. -/
def mesEmissaoOf (d : String) : String := if pyLen d ≥ 7 then pyTake (pyDrop d 5) 2 else ""

/-- Normalized material string: `get_text(prod, 'ns:xProd', ns, '').upper().strip()`. -/
def materialOf (prod : Produto) : String := pyStrip (pyUpper (prod.xProd.getD ""))

/-- Raw quantity: `float(qCom_str)` with `except ValueError: 0.0`. -/
def rawQuantidadeOf (pfloat : FloatParse) (prod : Produto) : ℚ :=
  (pfloat (prod.qCom.getD "0")).getD 0

/-- Unit string: `get_text(prod, 'ns:uCom', ns, '').strip().lower()`. -/
def unidadeOfText (uCom : String) : String := pyLower (pyStrip uCom)

/-- Unit normalization (src/main.py lines 104-105):
`if 'ton' in unidade: quantidade *= 1000`. -/
def normalizeQuantidade (q : ℚ) (unidade : String) : ℚ :=
  if pyIn "ton" unidade then q * 1000 else q

/-- The unit-normalized quantity of a line item. -/
def quantidadeOf (pfloat : FloatParse) (prod : Produto) : ℚ :=
  normalizeQuantidade (rawQuantidadeOf pfloat prod) (unidadeOfText (prod.uCom.getD ""))

/-- Classification of a normalized material (src/main.py lines 119-133):
result tuple is `(categoria, subcategoria, status, observacoes)`. -/
def classify (material_mapping nao_embalagens : Table) (material : String) :
    String × String × String × String :=
  match nao_embalagens material with
  | some (categoria, tipo_nao_embalagem) =>
    (categoria, "", "INVALIDADO", "NÃO EMBALAGEM - " ++ tipo_nao_embalagem)
  | none =>
    match material_mapping material with
    | some (categoria, subcategoria) => (categoria, subcategoria, "VALIDADO", "")
    | none => ("", "", "VALIDADO", "")

/-- Header data shared by all rows of one document. -/
structure Header where
  tpNF : Option String
  uf : String
  nome : String
  mes : String
  ano : String
  numero : Nat
  chave : String
  cnpjEmit : String
  cnpjDest : String
  filename : String
deriving DecidableEq

/-- The `dados_nota` record built for one `det` (src/main.py lines 89-167). -/
def buildRow (material_mapping nao_embalagens : Table) (pfloat : FloatParse)
    (h : Header) (prod : Produto) : Row :=
  let material := materialOf prod
  let quantidade := quantidadeOf pfloat prod
  let valor_kg := (pfloat (prod.vUnCom.getD "0")).getD 0
  let valor_venda := (pfloat (prod.vProd.getD "0")).getD 0
  let cls := classify material_mapping nao_embalagens material
  { tipoNF := h.tpNF
    estado := h.uf
    cooperativa := h.nome
    mes := h.mes
    categoria := cls.1
    subcategoria := cls.2.1
    material := material
    quantidade := if cls.2.2.1 = "VALIDADO" then quantidade else 0
    valorPorKg := valor_kg
    valorPorVenda := valor_venda
    nomeDoArquivo := h.filename
    numeroNota := h.numero
    cnpjComprador := h.cnpjDest
    unidade := unidadeOfText (prod.uCom.getD "")
    ncm := prod.NCM
    cfop := prod.CFOP
    sobra := ""
    mesValidacao := ""
    anoDeEmissao := h.ano
    anoTC := ""
    pauloRec := ""
    mesEntrega := ""
    cnpjOrganizacao := h.cnpjEmit
    chaveDeAcesso := h.chave
    status := cls.2.2.1
    natureza := ""
    observacoes := cls.2.2.2
    quantidadeNaoValidada := if cls.2.2.1 ≠ "VALIDADO" then quantidade else 0
    programa := "" }

/-- The generic document-boundary error (`except Exception as e`,
src/main.py lines 171-173).  The only exception reachable in the model is
`int('')` from an all-zero document number, whose Python message is fixed. -/
def genericError (filename : String) : ErrorEntry :=
  { arquivo := filename
    erro := "Erro de processamento Python: invalid literal for int() with base 10: \x27\x27" }

/-- Extraction phase (src/main.py lines 53-169), entered after the
authorization check.  `protChNFe` is the text at
`.//ns:protNFe/ns:infProt/ns:chNFe`, looked up from the root. -/
def extractPhase (material_mapping nao_embalagens : Table) (pfloat : FloatParse)
    (protChNFe : Option String) (inf? : Option InfNFe) (filename : String) :
    List Row × Option ErrorEntry :=
  match inf? with
  | none =>
    ([], some { arquivo := filename
                erro := "Tag <infNFe> não encontrada. O arquivo pode ser um evento ou recibo, não a nota fiscal completa." })
  | some inf =>
    if inf.det.isEmpty then
      ([], some { arquivo := filename
                  erro := "Nenhum produto (tag <det>) encontrado na nota." })
    else
      let nNF_str := (inf.ide.bind Ide.nNF).getD "0"
      match numeroNotaOf nNF_str with
      | none => ([], some (genericError filename))
      | some numero =>
        let data_emissao := (inf.ide.bind Ide.dhEmi).getD ""
        let chave0 := protChNFe.getD ""
        let chave := if chave0 = "" then pyReplace (inf.Id.getD "") "NFe" "" else chave0
        let h : Header :=
          { tpNF := inf.ide.bind Ide.tpNF
            uf := (inf.emit.bind Emit.UF).getD ""
            nome := (inf.emit.bind Emit.xNome).getD ""
            mes := mesEmissaoOf data_emissao
            ano := anoEmissaoOf data_emissao
            numero := numero
            chave := chave
            cnpjEmit := (inf.emit.bind Emit.CNPJ).getD ""
            cnpjDest := (inf.dest.bind Dest.CNPJ).getD ""
            filename := filename }
        (inf.det.filterMap fun det =>
          det.prod.map (buildRow material_mapping nao_embalagens pfloat h), none)

/-- The authorization gate plus extraction for one parsed tree
(src/main.py lines 42-169). -/
def processarDoc (material_mapping nao_embalagens : Table) (pfloat : FloatParse)
    (doc : XmlDoc) (filename : String) : List Row × Option ErrorEntry :=
  match doc.prot with
  | some p =>
    if p.truthy then
      let cStat := p.infProt.bind InfProt.cStat
      let xMotivo := p.infProt.bind InfProt.xMotivo
      if cStat ≠ some "100" then
        ([], some { arquivo := filename
                    erro := "Status Inválido (" ++ pyFormatOpt cStat ++ "): " ++ pyFormatOpt xMotivo })
      else
        extractPhase material_mapping nao_embalagens pfloat
          ((doc.prot.bind Prot.infProt).bind InfProt.chNFe) doc.infNFe filename
    else
      extractPhase material_mapping nao_embalagens pfloat
        ((doc.prot.bind Prot.infProt).bind InfProt.chNFe) doc.infNFe filename
  | none =>
    extractPhase material_mapping nao_embalagens pfloat
      ((doc.prot.bind Prot.infProt).bind InfProt.chNFe) doc.infNFe filename

/-- `processar_xml(xml_content, filename)` (src/main.py lines 29-173):
returns the rows and the error entry (`None` on success). -/
def processar_xml (material_mapping nao_embalagens : Table) (pfloat : FloatParse)
    (input : RawInput) (filename : String) : List Row × Option ErrorEntry :=
  match input with
  | .malformed =>
    ([], some { arquivo := filename, erro := "Estrutura XML inválida ou corrompida." })
  | .parsed doc => processarDoc material_mapping nao_embalagens pfloat doc filename

/-! ## Batch aggregation (`main`, src/main.py lines 236-280) -/

/-- The processing loop of `main`: per-file results, keeping nonempty
DataFrames (`if not df_temp.empty`) for concatenation and collecting the
error dicts. -/
def processBatch (material_mapping nao_embalagens : Table) (pfloat : FloatParse)
    (inputs : List (RawInput × String)) : List Row × List ErrorEntry :=
  let results := inputs.map fun x => processar_xml material_mapping nao_embalagens pfloat x.1 x.2
  let dfs := (results.map Prod.fst).filter fun df => !df.isEmpty
  let erros := results.filterMap Prod.snd
  (dfs.flatten, erros)

/-! ## The summary sheet of `to_excel` (src/main.py lines 180-194) -/

/-- Sum of the `'QUANTIDADE'` column. -/
def sumQuantidade (df : List Row) : ℚ := (df.map Row.quantidade).sum

/-- Sum of the `'QUANTIDADE NÃO VALIDADA'` column. -/
def sumNaoValidada (df : List Row) : ℚ := (df.map Row.quantidadeNaoValidada).sum

/-- Python `f"{x:.2f}"` on the exact rational value (rounding half up;
the claims under verification do not depend on tie behaviour). -/
def format2 (x : ℚ) : String :=
  let n : Int := (x * 100 + 1 / 2).floor
  let m : Nat := n.natAbs
  (if n < 0 then "-" else "") ++ toString (m / 100) ++ "." ++
    (if m % 100 < 10 then "0" else "") ++ toString (m % 100)

/-- The rows of the `resumo` DataFrame, by metric name:
`'Total Recebido'`, `'Total Validado'`, `'Total Invalidado'`,
`'Percentual Validado'` (src/main.py lines 180-194). -/
structure ResumoSheet where
  totalRecebido : ℚ
  totalValidado : ℚ
  totalInvalidado : ℚ
  percentualValidado : String
deriving DecidableEq

/-- The summary sheet computed by `to_excel`.  Note the source computes
`'Total Recebido'` as `df['QUANTIDADE'].sum()` (line 188), the same
expression as `'Total Validado'`. -/
def resumoSheet (df : List Row) : ResumoSheet :=
  { totalRecebido := sumQuantidade df
    totalValidado := sumQuantidade df
    totalInvalidado := sumNaoValidada df
    percentualValidado :=
      if sumQuantidade df + sumNaoValidada df > 0 then
        format2 (sumQuantidade df / (sumQuantidade df + sumNaoValidada df) * 100) ++ "%"
      else "0.00%" }

/-! ## Sample data (concrete instances used by closed theorems) -/

/-- Sample packaging table: spec §8 scenario entry. -/
def sampleMapping : Table := fun m => if m = "PAPELÃO" then some ("Papel", "Papelão") else none

/-- Sample non-packaging table: spec §8 scenario entry. -/
def sampleNaoEmb : Table := fun m => if m = "CAIXA DE MADEIRA" then some ("Madeira", "Pallet") else none

/-- A packaging table that also maps the non-packaging sample key, to
exercise the lookup priority. -/
def overlapMapping : Table :=
  fun m => if m = "CAIXA DE MADEIRA" then some ("Papel", "Caixa") else none

/-- A concrete float parser for witnesses: digit strings only. -/
def sampleFloat : FloatParse := fun s => (pyInt? s).map fun n => (n : ℚ)

/-- Line item matching the packaging table (quantity 1 kg). -/
def sampleProdV : Produto :=
  { xProd := some "PAPELÃO ", qCom := some "1", uCom := some "KG"
    vUnCom := some "2", vProd := some "2", NCM := some "48101300", CFOP := some "5102" }

/-- Line item matching the non-packaging table (quantity 2 kg). -/
def sampleProdI : Produto :=
  { xProd := some "CAIXA DE MADEIRA", qCom := some "2", uCom := some "KG"
    vUnCom := some "3", vProd := some "6", NCM := some "44152000", CFOP := some "5102" }

/-- An authorized protocol section. -/
def protAuth : Prot :=
  { infProt := some { cStat := some "100", xMotivo := some "Autorizado o uso da NF-e"
                      chNFe := some "KEY123" }
    otherChild := false }

/-- A denied protocol section (`cStat` 302). -/
def protDenied : Prot :=
  { infProt := some { cStat := some "302", xMotivo := some "Uso Denegado", chNFe := none }
    otherChild := false }

/-- A protocol section whose `infProt` child carries no `cStat` node. -/
def protNoCStat : Prot :=
  { infProt := some { cStat := none, xMotivo := none, chNFe := none }, otherChild := false }

/-- The invoice body shared by the sample documents: two line items,
one per classification table. -/
def sampleInf : InfNFe :=
  { Id := some "NFe35KEY"
    ide := some { tpNF := some "1", nNF := some "123", dhEmi := some "2024-05-10T08:00:00-03:00" }
    emit := some { CNPJ := some "111", xNome := some "COOP", UF := some "SP" }
    dest := some { CNPJ := some "222" }
    det := [{ prod := some sampleProdV }, { prod := some sampleProdI }] }

/-- An authorized two-item document. -/
def sampleDoc : XmlDoc := { prot := some protAuth, infNFe := some sampleInf }

/-- Documents for the authorization-gate theorems. -/
def docDenied : XmlDoc := { prot := some protDenied, infNFe := some sampleInf }

/-- Document whose protocol section has an `infProt` child but no status code. -/
def docNoCStat : XmlDoc := { prot := some protNoCStat, infNFe := some sampleInf }

/-- Document whose protocol element is present but childless. -/
def docChildless : XmlDoc :=
  { prot := some { infProt := none, otherChild := false }, infNFe := some sampleInf }

/-- Valid document whose `nNF` text is all zeros. -/
def docZeros : XmlDoc :=
  { prot := none
    infNFe := some { Id := none
                     ide := some { tpNF := none, nNF := some "000", dhEmi := none }
                     emit := none, dest := none
                     det := [{ prod := some sampleProdV }] } }

/-- The rows the pipeline extracts from `sampleDoc`. -/
def sampleRows : List Row :=
  (processar_xml sampleMapping sampleNaoEmb sampleFloat (.parsed sampleDoc) "nota.xml").1

/-- Header matching what `extractPhase` builds for `sampleDoc`. -/
def sampleHeader : Header :=
  { tpNF := some "1", uf := "SP", nome := "COOP", mes := "05", ano := "2024"
    numero := 123, chave := "KEY123", cnpjEmit := "111", cnpjDest := "222"
    filename := "nota.xml" }

/-- The row built from the validated sample line item of `sampleDoc`. -/
def sampleRowV : Row := buildRow sampleMapping sampleNaoEmb sampleFloat sampleHeader sampleProdV

/-! ## Claim C1 -/

/-- Claim C1 (code_bug evaluation): on a table with validated mass 1 kg and
invalidated mass 2 kg, the summary sheet's `'Total Recebido'` row is 1 — the
validated sum alone — and differs from validated + invalidated = 3, contrary
to the claim that it equals their sum. -/
theorem C1_total_recebido_eval :
    sumQuantidade sampleRows = 1 ∧ sumNaoValidada sampleRows = 2 ∧
    (resumoSheet sampleRows).totalRecebido = 1 ∧
    (resumoSheet sampleRows).totalRecebido ≠
      sumQuantidade sampleRows + sumNaoValidada sampleRows := by
  with_unfolding_all decide

/-! ## Claim C2 -/

/-- Claim C2 (counterexample): a document whose protocol section is present
(with an `infProt` child) but whose status code is absent.  The claim says
validation proceeds to extraction when the code is absent; the program
instead returns an error entry and zero records, so the claimed
equivalence "error ↔ code present ∧ code ≠ 100" is false here. -/
theorem C2_counterexample :
    ¬ (((processar_xml sampleMapping sampleNaoEmb sampleFloat
          (.parsed docNoCStat) "n.xml").2.isSome = true) ↔
        ((((docNoCStat.prot.bind Prot.infProt).bind InfProt.cStat).isSome = true) ∧
          ((docNoCStat.prot.bind Prot.infProt).bind InfProt.cStat ≠ some "100"))) := by
  with_unfolding_all decide

/-- Claim C2 (amended): for a document whose protocol section is present and
truthy, the program returns an `ErrorEntry` carrying the code and reason text
and zero records exactly when the status code is not equal to `'100'` —
including when the code is absent, which is reported as `None`; it proceeds
to extraction exactly when the code equals `'100'`. -/
theorem C2_amended_auth_gate :
    ∀ (mm ne : Table) (pf : FloatParse) (doc : XmlDoc) (filename : String) (p : Prot),
      doc.prot = some p → p.truthy = true →
      ((p.infProt.bind InfProt.cStat ≠ some "100" →
          processar_xml mm ne pf (.parsed doc) filename =
            ([], some { arquivo := filename
                        erro := "Status Inválido (" ++
                          pyFormatOpt (p.infProt.bind InfProt.cStat) ++ "): " ++
                          pyFormatOpt (p.infProt.bind InfProt.xMotivo) })) ∧
        (p.infProt.bind InfProt.cStat = some "100" →
          processar_xml mm ne pf (.parsed doc) filename =
            extractPhase mm ne pf ((doc.prot.bind Prot.infProt).bind InfProt.chNFe)
              doc.infNFe filename)) := by
  intro mm ne pf doc filename p hp htr
  constructor
  · intro hne
    simp only [processar_xml, processarDoc, hp, htr, if_true]
    rw [if_pos hne]
  · intro heq
    simp only [processar_xml, processarDoc, hp, htr, if_true]
    rw [if_neg (by simp [heq])]

/-- Witness for the amended C2 theorem: the denied sample document yields the
status error; the authorized sample document proceeds to extraction. -/
theorem C2_amended_auth_gate_witness :
    (processar_xml sampleMapping sampleNaoEmb sampleFloat (.parsed docDenied) "d.xml" =
      ([], some { arquivo := "d.xml"
                  erro := "Status Inválido (" ++
                    pyFormatOpt (protDenied.infProt.bind InfProt.cStat) ++ "): " ++
                    pyFormatOpt (protDenied.infProt.bind InfProt.xMotivo) })) ∧
    (processar_xml sampleMapping sampleNaoEmb sampleFloat (.parsed sampleDoc) "nota.xml" =
      extractPhase sampleMapping sampleNaoEmb sampleFloat
        ((sampleDoc.prot.bind Prot.infProt).bind InfProt.chNFe) sampleDoc.infNFe "nota.xml") :=
  ⟨(C2_amended_auth_gate sampleMapping sampleNaoEmb sampleFloat docDenied "d.xml"
      protDenied rfl rfl).1 (by with_unfolding_all decide),
   (C2_amended_auth_gate sampleMapping sampleNaoEmb sampleFloat sampleDoc "nota.xml"
      protAuth rfl rfl).2 rfl⟩

/-! ## Claim C3 -/

/-- Claim C3 (code_bug evaluation): on an otherwise-valid document whose
`nNF` text is `"000"`, `int(nNF_str.lstrip('0'))` is `int('')`, which raises;
the exception is caught at the document boundary, so the document yields the
generic processing error and zero records instead of a record with document
number 0 as the claim asserts. -/
theorem C3_all_zero_nNF_crash :
    numeroNotaOf "000" = none ∧
    processar_xml sampleMapping sampleNaoEmb sampleFloat (.parsed docZeros) "zeros.xml" =
      ([], some (genericError "zeros.xml")) := by
  with_unfolding_all decide

/-! ## Claim C8 -/

/-- Outcome shape of the extraction phase: no error, or no rows. -/
lemma extractPhase_cases (mm ne : Table) (pf : FloatParse) (k : Option String)
    (inf? : Option InfNFe) (filename : String) :
    (extractPhase mm ne pf k inf? filename).2 = none ∨
    (extractPhase mm ne pf k inf? filename).1 = [] := by
  cases inf? with
  | none => exact Or.inr rfl
  | some inf =>
    by_cases hd : inf.det.isEmpty
    · right; simp [extractPhase, hd]
    · rw [Bool.not_eq_true] at hd
      rcases hn : numeroNotaOf ((inf.ide.bind Ide.nNF).getD "0") with _ | n
      · right; simp [extractPhase, hd, hn]
      · left; simp [extractPhase, hd, hn]

/-- Claim C8: document processing is total and mutually exclusive in its
outputs — for every input it returns either a (possibly empty) row list with
no error entry, or an error entry with zero rows; the exceptional path is
caught and surfaced as the generic error entry. -/
theorem C8_exclusive_outputs :
    ∀ (mm ne : Table) (pf : FloatParse) (input : RawInput) (filename : String),
      (processar_xml mm ne pf input filename).2 = none ∨
      (processar_xml mm ne pf input filename).1 = [] := by
  intro mm ne pf input filename
  cases input with
  | malformed => exact Or.inr rfl
  | parsed doc =>
    show (processarDoc mm ne pf doc filename).2 = none ∨
      (processarDoc mm ne pf doc filename).1 = []
    rcases hp : doc.prot with _ | p
    · simpa [processarDoc, hp] using extractPhase_cases mm ne pf _ doc.infNFe filename
    · by_cases htr : p.truthy = true
      · by_cases hc : p.infProt.bind InfProt.cStat = some "100"
        · simp only [processarDoc, hp, htr, if_true]
          rw [if_neg (by simp [hc])]
          exact extractPhase_cases mm ne pf _ doc.infNFe filename
        · right
          simp only [processarDoc, hp, htr, if_true]
          rw [if_pos hc]
      · rw [Bool.not_eq_true] at htr
        simp only [processarDoc, hp, htr, Bool.false_eq_true, if_false]
        exact extractPhase_cases mm ne pf _ doc.infNFe filename

/-! ## Claim C10 -/

/-- Claim C10: a protocol element that exists but has no child elements is
falsy in Python, so the authorization check is skipped and the document is
processed exactly as if the protocol section were absent. -/
theorem C10_childless_prot_skipped :
    ∀ (mm ne : Table) (pf : FloatParse) (doc : XmlDoc) (filename : String) (p : Prot),
      doc.prot = some p → p.infProt = none → p.otherChild = false →
      processar_xml mm ne pf (.parsed doc) filename =
        processar_xml mm ne pf (.parsed { doc with prot := none }) filename := by
  intro mm ne pf doc filename p hp h1 h2
  cases doc with
  | mk prot inf =>
    simp only at hp
    subst hp
    cases p with
    | mk pi po =>
      simp only at h1 h2
      subst h1; subst h2
      rfl

/-- Witness for C10 at a concrete childless-protocol document. -/
theorem C10_childless_prot_skipped_witness :
    processar_xml sampleMapping sampleNaoEmb sampleFloat (.parsed docChildless) "c.xml" =
      processar_xml sampleMapping sampleNaoEmb sampleFloat
        (.parsed { docChildless with prot := none }) "c.xml" :=
  C10_childless_prot_skipped sampleMapping sampleNaoEmb sampleFloat docChildless "c.xml"
    { infProt := none, otherChild := false } rfl rfl rfl

/-! ## Claim C4 -/

/-- Claim C4: in every record built by the pipeline, at most one of the two
quantity fields is non-zero, their sum is the unit-normalized extracted
quantity, and which one is zero is determined solely by the disposition
status. -/
theorem C4_quantity_split :
    ∀ (mm ne : Table) (pf : FloatParse) (h : Header) (prod : Produto),
      ((buildRow mm ne pf h prod).quantidade = 0 ∨
        (buildRow mm ne pf h prod).quantidadeNaoValidada = 0) ∧
      (buildRow mm ne pf h prod).quantidade + (buildRow mm ne pf h prod).quantidadeNaoValidada
        = quantidadeOf pf prod ∧
      ((buildRow mm ne pf h prod).status = "VALIDADO" →
        (buildRow mm ne pf h prod).quantidade = quantidadeOf pf prod ∧
        (buildRow mm ne pf h prod).quantidadeNaoValidada = 0) ∧
      ((buildRow mm ne pf h prod).status = "INVALIDADO" →
        (buildRow mm ne pf h prod).quantidadeNaoValidada = quantidadeOf pf prod ∧
        (buildRow mm ne pf h prod).quantidade = 0) := by
  intro mm ne pf h prod
  rcases hne : ne (materialOf prod) with _ | ⟨c, r⟩
  · rcases hmm2 : mm (materialOf prod) with _ | ⟨c, s⟩ <;>
      simp [buildRow, classify, hne, hmm2]
  · simp [buildRow, classify, hne]

/-- Witness for C4 at the invalidated sample line item. -/
theorem C4_quantity_split_witness :
    ((buildRow sampleMapping sampleNaoEmb sampleFloat sampleHeader sampleProdI).quantidade = 0 ∨
      (buildRow sampleMapping sampleNaoEmb sampleFloat sampleHeader
        sampleProdI).quantidadeNaoValidada = 0) ∧
    (buildRow sampleMapping sampleNaoEmb sampleFloat sampleHeader sampleProdI).quantidade +
        (buildRow sampleMapping sampleNaoEmb sampleFloat sampleHeader
          sampleProdI).quantidadeNaoValidada
      = quantidadeOf sampleFloat sampleProdI ∧
    ((buildRow sampleMapping sampleNaoEmb sampleFloat sampleHeader sampleProdI).status =
        "VALIDADO" →
      (buildRow sampleMapping sampleNaoEmb sampleFloat sampleHeader sampleProdI).quantidade =
        quantidadeOf sampleFloat sampleProdI ∧
      (buildRow sampleMapping sampleNaoEmb sampleFloat sampleHeader
        sampleProdI).quantidadeNaoValidada = 0) ∧
    ((buildRow sampleMapping sampleNaoEmb sampleFloat sampleHeader sampleProdI).status =
        "INVALIDADO" →
      (buildRow sampleMapping sampleNaoEmb sampleFloat sampleHeader
        sampleProdI).quantidadeNaoValidada = quantidadeOf sampleFloat sampleProdI ∧
      (buildRow sampleMapping sampleNaoEmb sampleFloat sampleHeader sampleProdI).quantidade
        = 0) :=
  C4_quantity_split sampleMapping sampleNaoEmb sampleFloat sampleHeader sampleProdI

/-! ## Claim C5 -/

/-- Claim C5: classification is a pure function of the normalized material,
with the non-packaging table taking priority (its outcome is `INVALIDADO`
with the stored category and the observation `NÃO EMBALAGEM - ` + reason,
independently of the packaging table), then the packaging table
(`VALIDADO` with category and subcategory), then the unmapped fallback
(`VALIDADO` with empty category and subcategory); the row fields are exactly
the classification of the uppercase-trimmed material string. -/
theorem C5_classification_priority :
    ∀ (mm ne : Table) (m : String),
      (∀ c r, ne m = some (c, r) →
        classify mm ne m = (c, "", "INVALIDADO", "NÃO EMBALAGEM - " ++ r)) ∧
      (ne m = none → ∀ c s, mm m = some (c, s) →
        classify mm ne m = (c, s, "VALIDADO", "")) ∧
      (ne m = none → mm m = none → classify mm ne m = ("", "", "VALIDADO", "")) ∧
      (∀ (pf : FloatParse) (h : Header) (prod : Produto),
        ((buildRow mm ne pf h prod).categoria, (buildRow mm ne pf h prod).subcategoria,
          (buildRow mm ne pf h prod).status, (buildRow mm ne pf h prod).observacoes) =
          classify mm ne (materialOf prod)) := by
  intro mm ne m
  refine ⟨?_, ?_, ?_, ?_⟩
  · intro c r hne; simp [classify, hne]
  · intro hne c s hmm2; simp [classify, hne, hmm2]
  · intro hne hmm2; simp [classify, hne, hmm2]
  · intro pf h prod; rfl

/-- Witness for C5: a material present in both tables resolves to the
non-packaging outcome, never the packaging one. -/
theorem C5_classification_priority_witness :
    classify overlapMapping sampleNaoEmb "CAIXA DE MADEIRA" =
      ("Madeira", "", "INVALIDADO", "NÃO EMBALAGEM - " ++ "Pallet") :=
  (C5_classification_priority overlapMapping sampleNaoEmb "CAIXA DE MADEIRA").1
    "Madeira" "Pallet" (by with_unfolding_all decide)

/-! ## Claim C7 -/

/-- Claim C7: when the validated plus unvalidated sum is zero the percentage
cell is exactly the string `0.00%` (no division happens); when the sum is
positive the cell is the ratio times 100, formatted to two decimals with a
`%` suffix. -/
theorem C7_percent_zero_guard :
    ∀ df : List Row,
      (sumQuantidade df + sumNaoValidada df = 0 →
        (resumoSheet df).percentualValidado = "0.00%") ∧
      (0 < sumQuantidade df + sumNaoValidada df →
        (resumoSheet df).percentualValidado =
          format2 (sumQuantidade df / (sumQuantidade df + sumNaoValidada df) * 100) ++ "%") := by
  intro df
  constructor
  · intro h0
    show (if sumQuantidade df + sumNaoValidada df > 0 then
        format2 (sumQuantidade df / (sumQuantidade df + sumNaoValidada df) * 100) ++ "%"
      else "0.00%") = "0.00%"
    rw [h0]
    simp
  · intro hpos
    show (if sumQuantidade df + sumNaoValidada df > 0 then
        format2 (sumQuantidade df / (sumQuantidade df + sumNaoValidada df) * 100) ++ "%"
      else "0.00%") =
      format2 (sumQuantidade df / (sumQuantidade df + sumNaoValidada df) * 100) ++ "%"
    rw [if_pos hpos]

/-- Witness for C7: the empty table renders `0.00%`; the sample table with
total mass 3 kg renders the formatted ratio. -/
theorem C7_percent_zero_guard_witness :
    (resumoSheet []).percentualValidado = "0.00%" ∧
    (resumoSheet sampleRows).percentualValidado =
      format2 (sumQuantidade sampleRows /
        (sumQuantidade sampleRows + sumNaoValidada sampleRows) * 100) ++ "%" :=
  ⟨(C7_percent_zero_guard []).1 (by simp [sumQuantidade, sumNaoValidada]),
   (C7_percent_zero_guard sampleRows).2 (by with_unfolding_all decide)⟩

/-! ## Claim C9 -/

/-- Every row of the extraction phase arises from `buildRow`. -/
lemma row_mem_extractPhase {mm ne : Table} {pf : FloatParse} {k : Option String}
    {inf? : Option InfNFe} {filename : String} {row : Row}
    (h : row ∈ (extractPhase mm ne pf k inf? filename).1) :
    ∃ hd prod, row = buildRow mm ne pf hd prod := by
  cases inf? with
  | none => simp [extractPhase] at h
  | some inf =>
    by_cases hdet : inf.det.isEmpty
    · simp [extractPhase, hdet] at h
    · rw [Bool.not_eq_true] at hdet
      rcases hn : numeroNotaOf ((inf.ide.bind Ide.nNF).getD "0") with _ | n
      · simp [extractPhase, hdet, hn] at h
      · simp only [extractPhase, hdet, Bool.false_eq_true, if_false, hn] at h
        rw [List.mem_filterMap] at h
        obtain ⟨det, hdet2, hmap⟩ := h
        rcases hprod : det.prod with _ | prod
        · rw [hprod] at hmap; simp at hmap
        · rw [hprod] at hmap
          simp at hmap
          exact ⟨_, prod, hmap.symm⟩

/-- Every row returned by `processar_xml` arises from `buildRow`. -/
lemma row_mem_processar {mm ne : Table} {pf : FloatParse} {input : RawInput}
    {filename : String} {row : Row}
    (h : row ∈ (processar_xml mm ne pf input filename).1) :
    ∃ hd prod, row = buildRow mm ne pf hd prod := by
  cases input with
  | malformed => simp [processar_xml] at h
  | parsed doc =>
    simp only [processar_xml] at h
    rcases hp : doc.prot with _ | p
    · simp only [processarDoc, hp] at h
      exact row_mem_extractPhase h
    · by_cases htr : p.truthy = true
      · by_cases hc : p.infProt.bind InfProt.cStat = some "100"
        · simp only [processarDoc, hp, htr, if_true] at h
          rw [if_neg (by simp [hc])] at h
          exact row_mem_extractPhase h
        · simp only [processarDoc, hp, htr, if_true] at h
          rw [if_pos hc] at h
          simp at h
      · rw [Bool.not_eq_true] at htr
        simp only [processarDoc, hp, htr, Bool.false_eq_true, if_false] at h
        exact row_mem_extractPhase h

/-- Every row of the aggregated batch table arises from `buildRow`. -/
lemma row_mem_batch {mm ne : Table} {pf : FloatParse}
    {inputs : List (RawInput × String)} {row : Row}
    (h : row ∈ (processBatch mm ne pf inputs).1) :
    ∃ hd prod, row = buildRow mm ne pf hd prod := by
  simp only [processBatch] at h
  rw [List.mem_flatten] at h
  obtain ⟨L, hL, hrow⟩ := h
  rw [List.mem_filter] at hL
  obtain ⟨hLmem, -⟩ := hL
  rw [List.mem_map] at hLmem
  obtain ⟨res, hres, rfl⟩ := hLmem
  rw [List.mem_map] at hres
  obtain ⟨x, hx, rfl⟩ := hres
  exact row_mem_processar hrow

/-- Claim C9: every record in the aggregated table has the empty string in
all placeholder and downstream-editing fields, and in the observations
field whenever the record is validated. -/
theorem C9_placeholder_fields :
    ∀ (mm ne : Table) (pf : FloatParse) (inputs : List (RawInput × String)) (row : Row),
      row ∈ (processBatch mm ne pf inputs).1 →
      row.sobra = "" ∧ row.mesValidacao = "" ∧ row.anoTC = "" ∧ row.pauloRec = "" ∧
      row.mesEntrega = "" ∧ row.natureza = "" ∧ row.programa = "" ∧
      (row.status = "VALIDADO" → row.observacoes = "") := by
  intro mm ne pf inputs row hrow
  obtain ⟨hd, prod, rfl⟩ := row_mem_batch hrow
  refine ⟨rfl, rfl, rfl, rfl, rfl, rfl, rfl, ?_⟩
  intro hst
  rcases hne : ne (materialOf prod) with _ | ⟨c, r⟩
  · rcases hmm2 : mm (materialOf prod) with _ | ⟨c, s⟩ <;>
      simp [buildRow, classify, hne, hmm2]
  · exfalso
    simp only [buildRow, classify, hne] at hst
    exact absurd hst (by decide)

/-- Witness for C9 at the validated sample row of a one-document batch. -/
theorem C9_placeholder_fields_witness :
    sampleRowV.sobra = "" ∧ sampleRowV.mesValidacao = "" ∧ sampleRowV.anoTC = "" ∧
    sampleRowV.pauloRec = "" ∧ sampleRowV.mesEntrega = "" ∧ sampleRowV.natureza = "" ∧
    sampleRowV.programa = "" ∧
    (sampleRowV.status = "VALIDADO" → sampleRowV.observacoes = "") :=
  C9_placeholder_fields sampleMapping sampleNaoEmb sampleFloat
    [(RawInput.parsed sampleDoc, "nota.xml")] sampleRowV (by with_unfolding_all decide)

/-! ## Claim C6

The source lowercases and strips the unit text before testing `'ton' in`;
the spec phrases the test as case-insensitive containment on the raw unit
text.  The lemmas below show the two coincide: stripping outer whitespace
neither creates nor destroys an occurrence of a whitespace-free pattern. -/

/-- Two booleans agreeing as propositions are equal. -/
lemma bool_eq_of_true_iff {a b : Bool} (h : (a = true) ↔ (b = true)) : a = b := by
  cases a <;> cases b <;> simp_all

/-- Correctness of `List.isPrefixOf` on characters. -/
lemma isPrefixOf_eq_exists : ∀ (p l : List Char), p.isPrefixOf l = true ↔ ∃ t, p ++ t = l := by
  intro p
  induction p with
  | nil => intro l; simp [List.isPrefixOf]
  | cons a as ih =>
    intro l
    cases l with
    | nil => simp [List.isPrefixOf]
    | cons b bs =>
      rw [show (a :: as).isPrefixOf (b :: bs) = ((a == b) && as.isPrefixOf bs) from rfl]
      rw [Bool.and_eq_true, beq_iff_eq, ih bs]
      constructor
      · rintro ⟨rfl, u, hu⟩
        exact ⟨u, by simp [hu]⟩
      · rintro ⟨u, hu⟩
        simp only [List.cons_append, List.cons.injEq] at hu
        exact ⟨hu.1, u, hu.2⟩

/-- Correctness of `containsSub`: it decides contiguous occurrence. -/
lemma containsSub_iff (p : List Char) : ∀ l : List Char,
    containsSub p l = true ↔ ∃ s t, s ++ p ++ t = l := by
  intro l
  induction l with
  | nil =>
    cases p with
    | nil => simp [containsSub]
    | cons c cs => simp [containsSub]
  | cons c t ih =>
    rw [show containsSub p (c :: t) = (p.isPrefixOf (c :: t) || containsSub p t) from rfl]
    rw [Bool.or_eq_true, isPrefixOf_eq_exists, ih]
    constructor
    · rintro (⟨u, hu⟩ | ⟨s, u, hsu⟩)
      · exact ⟨[], u, by simpa using hu⟩
      · exact ⟨c :: s, u, by simp [hsu]⟩
    · rintro ⟨s, u, hsu⟩
      cases s with
      | nil => exact Or.inl ⟨u, by simpa using hsu⟩
      | cons x s2 =>
        simp only [List.cons_append, List.cons.injEq] at hsu
        exact Or.inr ⟨s2, u, hsu.2⟩

/-- Occurrence in a reversed list is occurrence of the reversed pattern. -/
lemma containsSub_reverse (p l : List Char) :
    containsSub p l.reverse = containsSub p.reverse l := by
  apply bool_eq_of_true_iff
  rw [containsSub_iff, containsSub_iff]
  constructor
  · rintro ⟨s, t, h⟩
    refine ⟨t.reverse, s.reverse, ?_⟩
    have h2 := congrArg List.reverse h
    simpa [List.reverse_append, List.append_assoc] using h2
  · rintro ⟨s, t, h⟩
    refine ⟨t.reverse, s.reverse, ?_⟩
    have h2 := congrArg List.reverse h
    simpa [List.reverse_append, List.append_assoc] using h2

/-- Dropping a prefix of `w`-characters cannot affect occurrences of a
pattern whose first character never equals the image of a `w`-character. -/
lemma containsSub_map_dropWhile (p0 : Char) (pr : List Char) (f : Char → Char)
    (w : Char → Bool) (hw : ∀ c, w c = true → (p0 == f c) = false) :
    ∀ l : List Char,
      containsSub (p0 :: pr) ((l.dropWhile w).map f) = containsSub (p0 :: pr) (l.map f) := by
  intro l
  induction l with
  | nil => rfl
  | cons c t ih =>
    rw [List.dropWhile_cons]
    by_cases hc : w c = true
    · rw [if_pos hc, ih, List.map_cons]
      have hrhs : containsSub (p0 :: pr) (f c :: t.map f) =
          (((p0 == f c) && pr.isPrefixOf (t.map f)) || containsSub (p0 :: pr) (t.map f)) := rfl
      rw [hrhs, hw c hc]
      simp
    · rw [if_neg hc]

/-- The trailing-strip analogue of `containsSub_map_dropWhile`, phrased for
`p` whose reverse starts with `q0`. -/
lemma containsSub_map_stripRight (p : List Char) (q0 : Char) (qr : List Char)
    (hrev : p.reverse = q0 :: qr) (f : Char → Char) (w : Char → Bool)
    (hw : ∀ c, w c = true → (q0 == f c) = false) (l : List Char) :
    containsSub p (((l.reverse.dropWhile w).reverse).map f) = containsSub p (l.map f) := by
  calc containsSub p (((l.reverse.dropWhile w).reverse).map f)
      = containsSub p (((l.reverse.dropWhile w).map f).reverse) := by
        rw [List.map_reverse]
    _ = containsSub p.reverse ((l.reverse.dropWhile w).map f) := by
        rw [containsSub_reverse]
    _ = containsSub p.reverse (l.reverse.map f) := by
        rw [hrev]
        exact containsSub_map_dropWhile q0 qr f w hw l.reverse
    _ = containsSub p.reverse ((l.map f).reverse) := by rw [List.map_reverse]
    _ = containsSub p.reverse.reverse (l.map f) := by rw [containsSub_reverse]
    _ = containsSub p (l.map f) := by rw [List.reverse_reverse]

/-- A whitespace character never lowercases to `'t'`. -/
lemma t_ne_toLower_of_ws : ∀ c : Char, c.isWhitespace = true →
    (('t' : Char) == Char.toLower c) = false := by
  intro c hc
  simp only [Char.isWhitespace, Bool.or_eq_true, decide_eq_true_eq] at hc
  obtain ((h | h) | h) | h := hc <;> subst h <;> decide

/-- A whitespace character never lowercases to `'n'`. -/
lemma n_ne_toLower_of_ws : ∀ c : Char, c.isWhitespace = true →
    (('n' : Char) == Char.toLower c) = false := by
  intro c hc
  simp only [Char.isWhitespace, Bool.or_eq_true, decide_eq_true_eq] at hc
  obtain ((h | h) | h) | h := hc <;> subst h <;> decide

/-- Modelled from the spec: "the unit-of-measure text contains the substring
for ton (case-insensitive)" — case-insensitive containment of `"ton"` in the
raw unit text (spec §4.2). -/
def containsTonCI (u : String) : Bool := containsSub "ton".data (u.data.map Char.toLower)

/-- The source's strip-then-lower-then-`in` test coincides with
case-insensitive containment on the raw unit text. -/
lemma pyIn_ton_strip_lower (u : String) :
    pyIn "ton" (pyLower (pyStrip u)) = containsTonCI u := by
  show containsSub "ton".data ((stripRight (stripLeft u.data)).map Char.toLower)
      = containsSub "ton".data (u.data.map Char.toLower)
  calc containsSub "ton".data ((stripRight (stripLeft u.data)).map Char.toLower)
      = containsSub "ton".data ((stripLeft u.data).map Char.toLower) :=
        containsSub_map_stripRight "ton".data 'n' ['o', 't'] rfl Char.toLower
          Char.isWhitespace n_ne_toLower_of_ws (stripLeft u.data)
    _ = containsSub "ton".data (u.data.map Char.toLower) :=
        containsSub_map_dropWhile 't' ['o', 'n'] Char.toLower
          Char.isWhitespace t_ne_toLower_of_ws u.data

/-- Claim C6: the normalized quantity equals the raw quantity times 1000
exactly when the raw unit-of-measure text contains "ton" case-insensitively,
and equals the raw quantity otherwise; in particular raw quantity 2 with
unit text `"TON"` yields 2000, and unit text `"KG"` leaves it unchanged. -/
theorem C6_unit_normalization :
    ∀ (q : ℚ) (u : String),
      normalizeQuantidade q (unidadeOfText u) =
        (if containsTonCI u = true then q * 1000 else q) ∧
      normalizeQuantidade 2 (unidadeOfText "TON") = 2000 ∧
      normalizeQuantidade q (unidadeOfText "KG") = q := by
  intro q u
  refine ⟨?_, ?_, ?_⟩
  · simp only [normalizeQuantidade, unidadeOfText, pyIn_ton_strip_lower]
  · have h : pyIn "ton" (unidadeOfText "TON") = true := by decide
    simp only [normalizeQuantidade, h, if_true]
    norm_num
  · have h : pyIn "ton" (unidadeOfText "KG") = false := by decide
    simp [normalizeQuantidade, h]

end NFChecker
